import Mathlib

/-!
Verification of the job-status synchronization core of the atom8 dashboard.

The embedding below translates, from the TypeScript source:
  * the store data model and its actions (`src/frontend/src/store/useJobStore.ts`),
  * the status translator tables and the coordinator's status handler and
    `startPipeline` (`src/unnamed/part_008`, the `usePipeline` hook),
  * the single-batch upload call (`src/frontend/src/lib/api.ts`),
  * the WebSocket channel manager (`src/unnamed/part_006`).

Modelling conventions: JS `Map<string, V>` becomes `String → Option V`;
the opaque `File` handle becomes `Option Nat`; the opaque `any` result
payload becomes `Option String` (`none` = JS `null`); wall-clock log
timestamps are omitted (each log entry keeps its message text only);
network and socket effects are made explicit as values (an upload outcome
parameter, and lists of deliveries / scheduled timer delays / opened
sockets returned by each event step).
-/

namespace Atom8

/-! ## Store data model (useJobStore.ts) -/

/-- Per-source status union from `SourceItem.status`. -/
inductive SourceStatus
  | pending | uploading | processing | completed | failed
deriving DecidableEq, Repr

/-- `'file' | 'url'` -/
inductive SourceType
  | file | url
deriving DecidableEq, Repr

/-- `SourceItem` from useJobStore.ts (the `file` handle is opaque). -/
structure SourceItem where
  id : String
  type : SourceType
  name : String
  size : Option String := none
  file : Option Nat := none
  url : Option String := none
  status : SourceStatus
  jobId : Option String := none
  error : Option String := none
deriving DecidableEq, Repr

/-- Stage status union from `PipelineStage.status`. -/
inductive StageStatus
  | pending | running | completed | failed
deriving DecidableEq, Repr

/-- `PipelineStage` from useJobStore.ts. -/
structure PipelineStage where
  id : String
  name : String
  status : StageStatus
  progress : Option Nat := none
  message : Option String := none
  error : Option String := none
deriving DecidableEq, Repr

/-- The store's `type JobStatus` (overall job status); renamed `OverallStatus`
here because the api.ts status event interface is also called `JobStatus`. -/
inductive OverallStatus
  | idle | uploading | processing | completed | failed
deriving DecidableEq, Repr

/-- `JobStatus` event interface from api.ts: one parsed channel message.
`result` is an opaque JSON payload (`none` = `null`); `stage_data` is an
opaque string-keyed record. -/
structure JobStatus where
  status : String
  progress : Nat := 0
  result : Option String := none
  error : Option String := none
  stage_data : Option (List (String × String)) := none
deriving DecidableEq, Repr

/-- The store state (`JobState` in useJobStore.ts). The legacy `steps`
field is omitted: the coordinator under verification never reads or
writes it. -/
structure JobState where
  sources : List SourceItem
  currentJobId : Option String
  status : OverallStatus
  progress : Nat
  schema : String
  stages : List PipelineStage
  stageData : List (String × String)
  result : Option String
  logs : List String
  file : Option Nat
deriving DecidableEq, Repr

/-- `Partial<SourceItem>` restricted to the fields the core ever passes
(`status`, `jobId`, `error`); an absent field (`none`) leaves the item's
field unchanged. -/
structure SourceUpdate where
  status : Option SourceStatus := none
  jobId : Option String := none
  error : Option String := none
deriving DecidableEq, Repr

/-- JS object spread `{ ...s, ...updates }` for a source item. -/
def applySourceUpdate (u : SourceUpdate) (s : SourceItem) : SourceItem :=
  { s with
    status := u.status.getD s.status
    jobId := match u.jobId with | some j => some j | none => s.jobId
    error := match u.error with | some e => some e | none => s.error }

/-- `Partial<PipelineStage>` restricted to the fields the core ever passes. -/
structure StageUpdate where
  status : Option StageStatus := none
  message : Option String := none
  error : Option String := none
deriving DecidableEq, Repr

/-- JS object spread `{ ...stage, ...updates }` for a pipeline stage. -/
def applyStageUpdate (u : StageUpdate) (g : PipelineStage) : PipelineStage :=
  { g with
    status := u.status.getD g.status
    message := match u.message with | some m => some m | none => g.message
    error := match u.error with | some e => some e | none => g.error }

/-- Elementwise body of the store's `updateSource` map:
`s.id === id ? { ...s, ...updates } : s`. -/
def updOneSource (id : String) (u : SourceUpdate) (s : SourceItem) : SourceItem :=
  if s.id = id then applySourceUpdate u s else s

/-- Store action `updateSource` (useJobStore.ts lines 171-175). -/
def updateSource (id : String) (u : SourceUpdate) (st : JobState) : JobState :=
  { st with sources := st.sources.map (updOneSource id u) }

/-- Elementwise body of the store's `updateStage` map. -/
def updOneStage (stageId : String) (u : StageUpdate) (g : PipelineStage) : PipelineStage :=
  if g.id = stageId then applyStageUpdate u g else g

/-- Store action `updateStage` (useJobStore.ts lines 188-192). -/
def updateStage (stageId : String) (u : StageUpdate) (st : JobState) : JobState :=
  { st with stages := st.stages.map (updOneStage stageId u) }

/-- JS strict equality on the opaque file handles: `undefined === null` and
`undefined === undefined` are handled by JS `===` on object references, which
is true only when both sides are the same object. -/
def jsFileEq : Option Nat → Option Nat → Bool
  | some a, some b => a = b
  | _, _ => false

/-- Store action `removeSource` (useJobStore.ts lines 166-169). -/
def removeSource (id : String) (st : JobState) : JobState :=
  { st with
    sources := st.sources.filter (fun s => s.id ≠ id)
    file :=
      if jsFileEq ((st.sources.find? (fun s => s.id = id)).bind (·.file)) st.file
      then none else st.file }

/-- Store action `setStatus`. -/
def setStatus (x : OverallStatus) (st : JobState) : JobState := { st with status := x }

/-- Store action `setProgress`. -/
def setProgress (p : Nat) (st : JobState) : JobState := { st with progress := p }

/-- Store action `setResult`. -/
def setResult (r : Option String) (st : JobState) : JobState := { st with result := r }

/-- Store action `setCurrentJobId`. -/
def setCurrentJobId (j : Option String) (st : JobState) : JobState :=
  { st with currentJobId := j }

/-- Store action `setStageData` (replaces the whole record). -/
def setStageData (sd : List (String × String)) (st : JobState) : JobState :=
  { st with stageData := sd }

/-- Store action `addLog`. The source prefixes each entry with a wall-clock
timestamp `[toLocaleTimeString()]`; real time is not modelled, so the entry
keeps the message text only. -/
def addLog (msg : String) (st : JobState) : JobState :=
  { st with logs := st.logs ++ [msg] }

/-- `defaultStages` from useJobStore.ts. -/
def defaultStages : List PipelineStage :=
  [ { id := "ingestion", name := "INGESTION", status := .pending },
    { id := "cleaning", name := "CLEANING", status := .pending },
    { id := "normalization", name := "NORMALIZATION", status := .pending },
    { id := "validation", name := "VALIDATION", status := .pending },
    { id := "export", name := "EXPORT", status := .pending } ]

/-- Store action `resetForNewRun` (keeps `sources`, clears job state).
The omitted legacy `steps` reset is not modelled. -/
def resetForNewRun (st : JobState) : JobState :=
  { st with
    currentJobId := none
    status := .idle
    progress := 0
    stages := defaultStages
    stageData := []
    result := none
    logs := [] }

/-! ## Status translator (usePipeline hook, src/unnamed/part_008 lines 79-101) -/

/-- `statusToStageMap`: raw backend status → pipeline stage id; an unknown
status has no entry (`none`, JS `undefined`). -/
def statusToStageMap (s : String) : Option String :=
  if s = "queued" then some "ingestion"
  else if s = "Extracting Raw Data" then some "ingestion"
  else if s = "Cleaning & Normalizing Data" then some "cleaning"
  else if s = "Structuring with AI" then some "normalization"
  else if s = "Validating" then some "validation"
  else if s = "Exporting Results" then some "export"
  else if s = "completed" then some "export"
  else if s = "failed" then some "export"
  else none

/-- `statusToProgressMap`: raw backend status → progress percentage. -/
def statusToProgressMap (s : String) : Option Nat :=
  if s = "queued" then some 5
  else if s = "Extracting Raw Data" then some 20
  else if s = "Cleaning & Normalizing Data" then some 45
  else if s = "Structuring with AI" then some 70
  else if s = "Validating" then some 90
  else if s = "Exporting Results" then some 95
  else if s = "completed" then some 100
  else if s = "failed" then some 0
  else none

/-- The fixed `stageOrder` array inside `handleStatusUpdate`. -/
def stageOrder : List String :=
  ["ingestion", "cleaning", "normalization", "validation", "export"]

/-- JS `Array.prototype.indexOf` on a string array (−1 when absent). -/
def jsIndexOfAux (x : String) : List String → Int → Int
  | [], _ => -1
  | a :: rest, i => if a = x then i else jsIndexOfAux x rest (i + 1)

/-- `stageOrder.indexOf(currentStageId)`. -/
def jsIndexOf (l : List String) (x : String) : Int := jsIndexOfAux x l 0

/-- The `switch (stageId)` block computing the running-state message. -/
def runningMessage (stageId : String) : String :=
  if stageId = "ingestion" then "Extracting and parsing data..."
  else if stageId = "cleaning" then "Removing duplicates and handling nulls..."
  else if stageId = "normalization" then "Structuring data with AI..."
  else if stageId = "validation" then "Running integrity checks..."
  else if stageId = "export" then "Generating final outputs..."
  else ""

/-- JS template interpolation of a `string | null` value (`null` prints as
the text `null`). -/
def jsTemplate : Option String → String
  | some s => s
  | none => "null"

/-- `JSON.stringify(result).substring(0, 100)` on the opaque payload. -/
def jsStringifyTrunc (r : String) : String := r.take 100

/-- Body of the `stageOrder.forEach((stageId, index) => ...)` loop in
`handleStatusUpdate` (part_008 lines 153-200), acting on one
`(index, stageId)` pair. -/
def stageStep (estatus : String) (eerror : Option String) (currentIndex : Int)
    (st : JobState) (p : Nat × String) : JobState :=
  let index : Int := p.1
  let stageId := p.2
  if index < currentIndex then
    updateStage stageId
      { status := some .completed, message := some "Stage completed successfully" } st
  else if index = currentIndex then
    if estatus = "completed" then
      addLog ("✓ " ++ stageId.toUpper ++ ": Completed")
        (updateStage stageId
          { status := some .completed, message := some "All processing complete" } st)
    else if estatus = "failed" then
      addLog ("✗ " ++ stageId.toUpper ++ ": Failed - " ++ jsTemplate eerror)
        (updateStage stageId
          { status := some .failed
            error := some (eerror.getD "Processing failed")
            message := some "Error occurred" } st)
    else
      let message := runningMessage stageId
      addLog ("▶ " ++ stageId.toUpper ++ ": " ++ message)
        (updateStage stageId { status := some .running, message := some message } st)
  else st

/-- The coordinator's `handleStatusUpdate(sourceId, status)` callback
(part_008 lines 123-213), translated operation for operation. -/
def handleStatusUpdate (sourceId : String) (e : JobStatus) (st : JobState) : JobState :=
  -- Update progress: `statusToProgressMap[status.status] || 0`
  let progress := (statusToProgressMap e.status).getD 0
  let st := setProgress progress st
  -- Update stage data from backend
  let st := match e.stage_data with
    | some sd => setStageData sd st
    | none => st
  -- Update source status
  let st :=
    if e.status = "completed" then
      addLog "✓ Processing completed successfully"
        (updateSource sourceId { status := some .completed } st)
    else if e.status = "failed" then
      addLog ("✗ Processing failed: " ++ jsTemplate e.error)
        (updateSource sourceId
          { status := some .failed, error := some (e.error.getD "Unknown error") } st)
    else
      addLog ("→ " ++ e.status) st
  -- Update pipeline stages based on status
  let st :=
    match statusToStageMap e.status with
    | some currentStageId =>
        let currentIndex := jsIndexOf stageOrder currentStageId
        stageOrder.enum.foldl (fun acc p => stageStep e.status e.error currentIndex acc p) st
    | none => st
  -- Handle completion
  if e.status = "completed" then
    let st := setStatus .completed st
    match e.result with
    | some r => addLog ("📊 Result: " ++ jsStringifyTrunc r ++ "...") (setResult (some r) st)
    | none => st
  else if e.status = "failed" then setStatus .failed st
  else st

/-- The status listener the coordinator registers on the channel
(part_008 line 263): `(status) => handleStatusUpdate('merged_sources', status)`. -/
def coordinatorOnStatus (e : JobStatus) (st : JobState) : JobState :=
  handleStatusUpdate "merged_sources" e st

/-- Delivering a sequence of parsed status events, in order, through the
coordinator's status listener. -/
def deliverAll (evs : List JobStatus) (st : JobState) : JobState :=
  evs.foldl (fun acc e => coordinatorOnStatus e acc) st

/-! ## Upload call (api.ts `uploadMultipleSources`) -/

/-- Outcome of the single `/upload` network round-trip: either the parsed
`UploadResponse.job_id`, or a thrown error's message (network failure,
non-OK response, parse failure all collapse to the thrown message). -/
inductive UploadOutcome
  | success (jobId : String)
  | failure (errorMessage : String)
deriving DecidableEq, Repr

/-- `uploadMultipleSources(sources, schema, onSourceUpdate)` from api.ts
(lines 83-163), with `onSourceUpdate` wired to the store's `updateSource`
as the coordinator does.  Returns the updated store plus either the
returned `[jobId]` list or the rethrown error message. -/
def uploadMultipleSources (srcs : List SourceItem) (outcome : UploadOutcome)
    (st : JobState) : JobState × Except String (List String) :=
  if srcs.length = 0 then (st, .error "No sources to upload")
  else
    -- Update all sources to uploading state
    let st := srcs.foldl
      (fun acc src => updateSource src.id { status := some .uploading } acc) st
    match outcome with
    | .success jobId =>
        -- Update all sources with the same job ID
        (srcs.foldl
          (fun acc src =>
            updateSource src.id { status := some .processing, jobId := some jobId } acc)
          st,
         .ok [jobId])
    | .failure msg =>
        -- catch: update all sources with error, then rethrow
        (srcs.foldl
          (fun acc src =>
            updateSource src.id { status := some .failed, error := some msg } acc)
          st,
         .error msg)

/-! ## WebSocket channel manager (src/unnamed/part_006) -/

/-- `maxReconnectAttempts = 5`. -/
def maxReconnectAttempts : Nat := 5

/-- `reconnectDelay = 1000` (milliseconds). -/
def reconnectDelay : Nat := 1000

/-- Pointwise insertion into a JS `Map` modelled as a lookup function. -/
def mapSet {α : Type} (f : String → Option α) (k : String) (v : α) :
    String → Option α :=
  fun k' => if k' = k then some v else f k'

/-- Pointwise deletion from a JS `Map` modelled as a lookup function. -/
def mapDel {α : Type} (f : String → Option α) (k : String) : String → Option α :=
  fun k' => if k' = k then none else f k'

/-- Pointwise update of the `connections` membership predicate. -/
def boolSet (f : String → Bool) (k : String) (v : Bool) : String → Bool :=
  fun k' => if k' = k then v else f k'

/-- `WebSocketManager` bookkeeping: `connections` keyed by job id,
`callbacks` / `errorCallbacks` as lists of opaque listener handles, and
`reconnectAttempts` counters.  (The raw `WebSocket` object inside a
connection entry is not modelled; handler behaviour is given by
`wsStep` below.) -/
structure WSManager where
  connections : String → Bool
  callbacks : String → Option (List Nat)
  errorCallbacks : String → Option (List Nat)
  reconnectAttempts : String → Option Nat

/-- The initial (empty-map) manager, as constructed at module load. -/
def WSManager.empty : WSManager :=
  { connections := fun _ => false
    callbacks := fun _ => none
    errorCallbacks := fun _ => none
    reconnectAttempts := fun _ => none }

/-- `createConnection(jobId)`: opens a physical socket (reported in the
second component) and records the connection. -/
def createConnection (jobId : String) (m : WSManager) : WSManager × List String :=
  ({ m with connections := boolSet m.connections jobId true }, [jobId])

/-- `WebSocketManager.connect(jobId, onStatus, onError?)` (part_006 lines
24-48): stores the callbacks, then opens a connection only if none exists.
The second component lists the physical sockets opened by this call. -/
def connect (jobId : String) (onStatus : Nat) (onError : Option Nat)
    (m : WSManager) : WSManager × List String :=
  let cbs := (m.callbacks jobId).getD []
  let m := { m with callbacks := mapSet m.callbacks jobId (cbs ++ [onStatus]) }
  let m :=
    match onError with
    | some ecb =>
        let ecbs := (m.errorCallbacks jobId).getD []
        { m with errorCallbacks := mapSet m.errorCallbacks jobId (ecbs ++ [ecb]) }
    | none => m
  if m.connections jobId then (m, [])
  else createConnection jobId m

/-- `cleanup(jobId)` (part_006 lines 139-144): drops every piece of
bookkeeping for the job. -/
def cleanup (jobId : String) (m : WSManager) : WSManager :=
  { m with
    connections := boolSet m.connections jobId false
    callbacks := mapDel m.callbacks jobId
    errorCallbacks := mapDel m.errorCallbacks jobId
    reconnectAttempts := mapDel m.reconnectAttempts jobId }

/-- One discrete event hitting the manager: a socket open, an inbound
message (`none` payload = JSON parse failure), a transport error, a close
with its code, or a pending reconnect timer firing. -/
inductive NetEvent
  | wsOpen (jobId : String)
  | message (jobId : String) (payload : Option JobStatus)
  | wsError (jobId : String)
  | wsClose (jobId : String) (code : Nat)
  | timerFire (jobId : String)
deriving DecidableEq, Repr

/-- Observable effects of processing one event: the next manager state,
status deliveries `(jobId, listener, event)`, error deliveries
`(jobId, listener, message)`, scheduled reconnect timers
`(jobId, delay ms)`, and physical sockets opened. -/
structure WSEffect where
  m : WSManager
  deliveries : List (String × Nat × JobStatus)
  errors : List (String × Nat × String)
  scheduled : List (String × Nat)
  opened : List String

/-- Effect with no observable output. -/
def silentEffect (m : WSManager) : WSEffect :=
  { m := m, deliveries := [], errors := [], scheduled := [], opened := [] }

/-- `attemptReconnect(jobId)` (part_006 lines 98-116): below the cap,
bump the counter and schedule a retry after `reconnectDelay * 2^attempts`;
at the cap, synthesize one terminal error to every error listener and
discard the bookkeeping. -/
def attemptReconnect (jobId : String) (m : WSManager) : WSEffect :=
  let attempts := (m.reconnectAttempts jobId).getD 0
  if attempts < maxReconnectAttempts then
    { m := { m with
        reconnectAttempts := mapSet m.reconnectAttempts jobId (attempts + 1) }
      deliveries := []
      errors := []
      scheduled := [(jobId, reconnectDelay * 2 ^ attempts)]
      opened := [] }
  else
    let ecbs := (m.errorCallbacks jobId).getD []
    { m := cleanup jobId m
      deliveries := []
      errors := ecbs.map (fun c =>
        (jobId, c, "Connection lost. Max reconnect attempts reached."))
      scheduled := []
      opened := [] }

/-- Processing one discrete event, mirroring the `onopen` / `onmessage` /
`onerror` / `onclose` handlers installed by `createConnection` and the
`setTimeout` body inside `attemptReconnect`. -/
def wsStep (m : WSManager) : NetEvent → WSEffect
  | .wsOpen jobId =>
      -- onopen: reset the reconnect counter
      silentEffect { m with reconnectAttempts := mapSet m.reconnectAttempts jobId 0 }
  | .message _ none =>
      -- parse failure: logged and dropped, channel kept
      silentEffect m
  | .message jobId (some e) =>
      -- onmessage: notify all callbacks, then clean up on a terminal status
      let cbs := (m.callbacks jobId).getD []
      let dels := cbs.map (fun c => (jobId, c, e))
      let m' := if e.status = "completed" ∨ e.status = "failed" then cleanup jobId m else m
      { m := m', deliveries := dels, errors := [], scheduled := [], opened := [] }
  | .wsError jobId =>
      -- onerror: surface to error listeners, do not close
      let ecbs := (m.errorCallbacks jobId).getD []
      { m := m
        deliveries := []
        errors := ecbs.map (fun c => (jobId, c, "WebSocket connection error"))
        scheduled := []
        opened := [] }
  | .wsClose jobId code =>
      -- onclose: drop the connection entry; reconnect unless a normal close
      let m := { m with connections := boolSet m.connections jobId false }
      if code ≠ 1000 then attemptReconnect jobId m else silentEffect m
  | .timerFire jobId =>
      -- setTimeout body: reconnect only if no connection exists by now
      if m.connections jobId then silentEffect m
      else
        let (m', opened) := createConnection jobId m
        { m := m', deliveries := [], errors := [], scheduled := [], opened := opened }

/-- Processing a sequence of events, concatenating their observable
effects in order. -/
def wsRun (m : WSManager) : List NetEvent → WSEffect
  | [] => silentEffect m
  | ev :: rest =>
      let e1 := wsStep m ev
      let e2 := wsRun e1.m rest
      { m := e2.m
        deliveries := e1.deliveries ++ e2.deliveries
        errors := e1.errors ++ e2.errors
        scheduled := e1.scheduled ++ e2.scheduled
        opened := e1.opened ++ e2.opened }

/-! ## Job Coordinator: `startPipeline` (part_008 lines 216-281) -/

/-- Combined result of a `startPipeline` call: the store, the channel
manager, and the physical sockets opened during the call. -/
structure PipelineResult where
  store : JobState
  ws : WSManager
  opened : List String

/-- The `catch` block of `startPipeline` (part_008 lines 273-280). -/
def startPipelineCatch (errorMessage : String) (srcs : List SourceItem)
    (st : JobState) (ws : WSManager) : PipelineResult :=
  let st := addLog ("✗ Error: " ++ errorMessage) st
  let st := srcs.foldl
    (fun acc src =>
      updateSource src.id { status := some .failed, error := some errorMessage } acc) st
  { store := setStatus .failed st, ws := ws, opened := [] }

/-- `startPipeline` (part_008 lines 216-281).  `outcome` stands for the
result of the awaited upload round-trip; `onStatusCb` / `onErrorCb` are the
handles of the two listeners the coordinator registers on the channel. -/
def startPipeline (outcome : UploadOutcome) (onStatusCb : Nat) (onErrorCb : Nat)
    (st : JobState) (ws : WSManager) : PipelineResult :=
  if st.sources.length = 0 then
    { store := addLog "⚠ Error: No sources added. Please add files or URLs." st
      ws := ws
      opened := [] }
  else
    let srcs := st.sources
    -- Reset state for new run (keeps sources)
    let st := resetForNewRun st
    let st := setStatus .uploading st
    let st := setProgress 0 st
    let st := addLog "🚀 Starting pipeline..." st
    let st := addLog ("📁 Processing " ++ toString srcs.length ++ " source(s) together...") st
    -- try: update all sources to uploading state, then upload together
    let st := srcs.foldl
      (fun acc src => updateSource src.id { status := some .uploading } acc) st
    let (st, up) := uploadMultipleSources srcs outcome st
    match up with
    | .error msg => startPipelineCatch msg srcs st ws
    | .ok jobIds =>
        match jobIds with
        | [] =>
            -- `throw new Error('No job ID returned from upload')`, caught below
            startPipelineCatch "No job ID returned from upload" srcs st ws
        | jobId :: _ =>
            let st := setCurrentJobId (some jobId) st
            let st := addLog "✓ All sources uploaded together successfully!" st
            let st := addLog ("📊 Merging " ++ toString srcs.length ++ " source(s)...") st
            let st := addLog "🔗 Connecting to WebSocket for real-time updates..." st
            -- Connect to WebSocket for this single job
            let st := setStatus .processing st
            let st := updateStage "ingestion" { status := some .running } st
            let (ws, opened) := connect jobId onStatusCb (some onErrorCb) ws
            { store := st, ws := ws, opened := opened }

/-! ## UI-side removal guard (SourcesPanel/index.tsx) -/

/-- `isProcessing` in SourcesPanel (line 68):
`status === 'processing' || status === 'uploading'`. -/
def isProcessingUI (st : JobState) : Prop :=
  st.status = .processing ∨ st.status = .uploading

instance (st : JobState) : Decidable (isProcessingUI st) := by
  unfold isProcessingUI; infer_instance

/-- A user removal request through the SourcesPanel: the remove button is
rendered only when `!isProcessing` (line 229), so while a job is in flight
the request cannot reach the store's `removeSource`. -/
def sourcesPanelRemoveRequest (id : String) (st : JobState) : JobState :=
  if isProcessingUI st then st else removeSource id st

/-! ## Helper lemmas -/

lemma updOneSource_id (id : String) (u : SourceUpdate) (s : SourceItem) :
    (updOneSource id u s).id = s.id := by
  unfold updOneSource applySourceUpdate
  split <;> rfl

lemma updOneStage_id (id : String) (u : StageUpdate) (g : PipelineStage) :
    (updOneStage id u g).id = g.id := by
  unfold updOneStage applyStageUpdate
  split <;> rfl

lemma map_updOneSource_no_match {l : List SourceItem} {id : String}
    (h : ∀ s ∈ l, s.id ≠ id) (u : SourceUpdate) :
    l.map (updOneSource id u) = l := by
  induction l with
  | nil => rfl
  | cons a t ih =>
      have ha : a.id ≠ id := h a (List.mem_cons_self a t)
      have ht : ∀ s ∈ t, s.id ≠ id := fun s hs => h s (List.mem_cons_of_mem a hs)
      simp [updOneSource, ha, ih ht]

lemma map_updOneStage_no_match {l : List PipelineStage} {id : String}
    (h : ∀ g ∈ l, g.id ≠ id) (u : StageUpdate) :
    l.map (updOneStage id u) = l := by
  induction l with
  | nil => rfl
  | cons a t ih =>
      have ha : a.id ≠ id := h a (List.mem_cons_self a t)
      have ht : ∀ g ∈ t, g.id ≠ id := fun g hg => h g (List.mem_cons_of_mem a hg)
      simp [updOneStage, ha, ih ht]

lemma updateSource_ids (id : String) (u : SourceUpdate) (st : JobState) :
    ((updateSource id u st).sources).map (·.id) = st.sources.map (·.id) := by
  unfold updateSource
  simp [List.map_map, Function.comp, updOneSource_id]

lemma foldl_updateSource_srcs_ids (u : SourceUpdate) (srcs : List SourceItem) :
    ∀ st : JobState,
      (((srcs.foldl (fun acc src => updateSource src.id u acc) st).sources).map (·.id))
        = st.sources.map (·.id) := by
  induction srcs with
  | nil => intro st; rfl
  | cons a t ih =>
      intro st
      rw [List.foldl_cons, ih, updateSource_ids]

/-- Folding a fixed partial update over every source id marks every source
whose id occurs in the batch; sources already satisfying the target
predicate keep it. -/
lemma foldl_updateSource_mark (u : SourceUpdate) (P : SourceItem → Prop)
    (hset : ∀ s, P (applySourceUpdate u s)) :
    ∀ (srcs : List SourceItem) (st : JobState),
      (∀ s ∈ st.sources, P s ∨ s.id ∈ srcs.map (·.id)) →
      ∀ s ∈ (srcs.foldl (fun acc src => updateSource src.id u acc) st).sources, P s := by
  intro srcs
  induction srcs with
  | nil =>
      intro st h s hs
      rcases h s hs with hP | hmem
      · exact hP
      · simp at hmem
  | cons a t ih =>
      intro st h s hs
      rw [List.foldl_cons] at hs
      refine ih (updateSource a.id u st) ?_ s hs
      intro s' hs'
      simp only [updateSource, List.mem_map] at hs'
      rcases hs' with ⟨x, hx, rfl⟩
      by_cases hid : x.id = a.id
      · left
        simpa [updOneSource, hid] using hset x
      · rcases h x hx with hP | hmem
        · left
          simpa [updOneSource, hid] using hP
        · simp only [List.map_cons, List.mem_cons] at hmem
          rcases hmem with h1 | h1
          · exact absurd h1 hid
          · right
            simpa [updOneSource, hid] using h1

lemma mem_ids_of_mem {l : List SourceItem} {s : SourceItem} (h : s ∈ l) :
    s.id ∈ l.map (·.id) :=
  List.mem_map_of_mem (·.id) h

/-- Demo store state used by concrete witnesses. -/
def demoState : JobState :=
  { sources := [{ id := "a", type := .file, name := "f.pdf", status := .pending }]
    currentJobId := none
    status := .idle
    progress := 0
    schema := "schema"
    stages := defaultStages
    stageData := []
    result := none
    logs := []
    file := none }

/-! ## C3: successful submission -/

/-- C3: for every non-empty batch, after `startPipeline` with a successful
upload returning `jobId = j`: every source is `processing` and carries that
job id, `overallStatus` is `processing`, exactly one physical channel was
opened for `j`, the manager records the connection and the registered
status listener — and a second `connect` for the same job id registers its
listener but opens no additional channel. -/
theorem startPipeline_success_state (st : JobState) (ws : WSManager) (j : String)
    (cb ecb cb2 : Nat) (hne : st.sources ≠ []) (hconn : ws.connections j = false) :
    (∀ s ∈ (startPipeline (.success j) cb ecb st ws).store.sources,
        s.status = .processing ∧ s.jobId = some j) ∧
    (startPipeline (.success j) cb ecb st ws).store.status = .processing ∧
    (startPipeline (.success j) cb ecb st ws).opened = [j] ∧
    (startPipeline (.success j) cb ecb st ws).ws.connections j = true ∧
    (startPipeline (.success j) cb ecb st ws).ws.callbacks j
      = some ((ws.callbacks j).getD [] ++ [cb]) ∧
    (connect j cb2 none ((startPipeline (.success j) cb ecb st ws).ws)).2 = [] ∧
    (connect j cb2 none ((startPipeline (.success j) cb ecb st ws).ws)).1.callbacks j
      = some ((((startPipeline (.success j) cb ecb st ws).ws.callbacks j).getD [])
          ++ [cb2]) := by
  have hlen : ¬ st.sources.length = 0 := by simpa using hne
  unfold startPipeline uploadMultipleSources
  rw [if_neg hlen]
  simp only [if_neg hlen]
  refine ⟨?_, ?_, ?_, ?_, ?_, ?_, ?_⟩
  · -- every source ends processing with the job id
    simp only [updateStage, setStatus, addLog, setCurrentJobId]
    apply foldl_updateSource_mark
      { status := some .processing, jobId := some j }
      (fun s => s.status = .processing ∧ s.jobId = some j)
      (fun s => by simp [applySourceUpdate])
    intro s hs
    right
    have h2 := mem_ids_of_mem hs
    rw [foldl_updateSource_srcs_ids, foldl_updateSource_srcs_ids] at h2
    simpa [addLog, setProgress, setStatus, resetForNewRun] using h2
  · simp [updateStage, setStatus]
  · simp [connect, createConnection, mapSet, hconn]
  · simp [connect, createConnection, mapSet, boolSet, hconn]
  · simp [connect, createConnection, mapSet, boolSet, hconn]
  · simp [connect, createConnection, mapSet, boolSet, hconn]
  · simp [connect, createConnection, mapSet, boolSet, hconn]

lemma demoState_sources_ne : demoState.sources ≠ [] := by decide

theorem startPipeline_success_state_witness :
    (∀ s ∈ (startPipeline (.success "job1") 0 1 demoState WSManager.empty).store.sources,
        s.status = .processing ∧ s.jobId = some "job1") ∧
    (startPipeline (.success "job1") 0 1 demoState WSManager.empty).store.status
      = .processing ∧
    (startPipeline (.success "job1") 0 1 demoState WSManager.empty).opened = ["job1"] ∧
    (startPipeline (.success "job1") 0 1 demoState WSManager.empty).ws.connections "job1"
      = true ∧
    (startPipeline (.success "job1") 0 1 demoState WSManager.empty).ws.callbacks "job1"
      = some ((WSManager.empty.callbacks "job1").getD [] ++ [0]) ∧
    (connect "job1" 2 none
      ((startPipeline (.success "job1") 0 1 demoState WSManager.empty).ws)).2 = [] ∧
    (connect "job1" 2 none
      ((startPipeline (.success "job1") 0 1 demoState WSManager.empty).ws)).1.callbacks
        "job1"
      = some ((((startPipeline (.success "job1") 0 1 demoState
          WSManager.empty).ws.callbacks "job1").getD []) ++ [2]) :=
  startPipeline_success_state demoState WSManager.empty "job1" 0 1 2 demoState_sources_ne rfl

/-! ## C6: failed submission -/

/-- C6: for every non-empty batch, if the single submission call fails
with message `msg`, every source is marked `failed` carrying that message,
`overallStatus` is `failed`, the channel manager is untouched and no
socket is opened (so no subscription is registered for any job id). -/
theorem startPipeline_failure_state (st : JobState) (ws : WSManager) (msg : String)
    (cb ecb : Nat) (hne : st.sources ≠ []) :
    (∀ s ∈ (startPipeline (.failure msg) cb ecb st ws).store.sources,
        s.status = .failed ∧ s.error = some msg) ∧
    (startPipeline (.failure msg) cb ecb st ws).store.status = .failed ∧
    (startPipeline (.failure msg) cb ecb st ws).ws = ws ∧
    (startPipeline (.failure msg) cb ecb st ws).opened = [] := by
  have hlen : ¬ st.sources.length = 0 := by simpa using hne
  unfold startPipeline uploadMultipleSources startPipelineCatch
  rw [if_neg hlen]
  simp only [if_neg hlen]
  refine ⟨?_, ?_, ?_, ?_⟩
  · -- every source ends failed with the captured message
    simp only [setStatus]
    apply foldl_updateSource_mark
      { status := some .failed, error := some msg }
      (fun s => s.status = .failed ∧ s.error = some msg)
      (fun s => by simp [applySourceUpdate])
    intro s hs
    right
    have h2 := mem_ids_of_mem hs
    simp only [addLog] at h2
    rw [foldl_updateSource_srcs_ids, foldl_updateSource_srcs_ids,
      foldl_updateSource_srcs_ids] at h2
    simpa [addLog, setProgress, setStatus, resetForNewRun] using h2
  · simp [setStatus]
  · trivial
  · trivial

theorem startPipeline_failure_state_witness :
    (∀ s ∈ (startPipeline (.failure "boom") 0 1 demoState WSManager.empty).store.sources,
        s.status = .failed ∧ s.error = some "boom") ∧
    (startPipeline (.failure "boom") 0 1 demoState WSManager.empty).store.status
      = .failed ∧
    (startPipeline (.failure "boom") 0 1 demoState WSManager.empty).ws
      = WSManager.empty ∧
    (startPipeline (.failure "boom") 0 1 demoState WSManager.empty).opened = [] :=
  startPipeline_failure_state demoState WSManager.empty "boom" 0 1 demoState_sources_ne

/-! ## C7: empty-batch guard -/

/-- C7: calling `startPipeline` with an empty sources list never issues a
network call (the result is the same for every upload outcome), appends
exactly one log entry, and performs no other state mutation: the store is
unchanged except for that log line, the channel manager is untouched, and
no socket is opened. -/
theorem startPipeline_empty_noop (outcome : UploadOutcome) (cb ecb : Nat)
    (st : JobState) (ws : WSManager) (h : st.sources = []) :
    startPipeline outcome cb ecb st ws =
      { store := { st with
          logs := st.logs ++ ["⚠ Error: No sources added. Please add files or URLs."] }
        ws := ws
        opened := [] } := by
  unfold startPipeline
  rw [h]
  simp [addLog, h]

theorem startPipeline_empty_noop_witness :
    startPipeline (.success "j1") 0 1 { demoState with sources := [] } WSManager.empty =
      { store := { demoState with
          sources := []
          logs := ["⚠ Error: No sources added. Please add files or URLs."] }
        ws := WSManager.empty
        opened := [] } :=
  startPipeline_empty_noop (.success "j1") 0 1
    { demoState with sources := [] } WSManager.empty rfl

/-! ## C1 and C2: event sequences through the coordinator's handler -/

lemma stageOrder_enum :
    stageOrder.enum = [(0, "ingestion"), (1, "cleaning"), (2, "normalization"),
      (3, "validation"), (4, "export")] := rfl

/-- The canonical successful event sequence, with the result payload `r`
attached to the terminal event and no errors. -/
def c2Events (r : String) : List JobStatus :=
  [ { status := "queued" }, { status := "Extracting Raw Data" },
    { status := "Cleaning & Normalizing Data" }, { status := "Structuring with AI" },
    { status := "Validating" }, { status := "completed", result := some r } ]

/-- C2: delivering the canonical sequence `["queued", "Extracting Raw
Data", "Cleaning & Normalizing Data", "Structuring with AI", "Validating",
"completed"]` in order, error-free, from a fresh run (stages in their
five default `pending` entries) ends with every stage `completed`,
`progress = 100`, `overallStatus = completed`, and `result` set to the
terminal event's payload. -/
theorem canonicalRun_final_state (st : JobState) (r : String)
    (hstg : st.stages = defaultStages) :
    (deliverAll (c2Events r) st).stages.map (·.status)
      = [.completed, .completed, .completed, .completed, .completed] ∧
    (deliverAll (c2Events r) st).progress = 100 ∧
    (deliverAll (c2Events r) st).status = .completed ∧
    (deliverAll (c2Events r) st).result = some r := by
  simp [deliverAll, coordinatorOnStatus, handleStatusUpdate, stageStep, c2Events,
    statusToStageMap, statusToProgressMap, jsIndexOf, jsIndexOfAux, stageOrder,
    List.enum, List.enumFrom, runningMessage, updateStage, updOneStage,
    applyStageUpdate, updateSource, updOneSource, applySourceUpdate, setProgress,
    setStatus, setResult, setStageData, setCurrentJobId, addLog, jsTemplate,
    jsStringifyTrunc, defaultStages, List.foldl_cons, List.foldl_nil, hstg]

theorem canonicalRun_final_state_witness :
    (deliverAll (c2Events "PAYLOAD") demoState).stages.map (·.status)
      = [.completed, .completed, .completed, .completed, .completed] ∧
    (deliverAll (c2Events "PAYLOAD") demoState).progress = 100 ∧
    (deliverAll (c2Events "PAYLOAD") demoState).status = .completed ∧
    (deliverAll (c2Events "PAYLOAD") demoState).result = some "PAYLOAD" :=
  canonicalRun_final_state demoState "PAYLOAD" rfl

/-- The C1 event sequence: two non-terminal events, then a terminal
`failed` event carrying `error = "bad schema"`. -/
def c1Events : List JobStatus :=
  [ { status := "queued" }, { status := "Extracting Raw Data" },
    { status := "failed", error := some "bad schema" } ]

/-- C1 counterexample: at a concrete one-source batch with fresh stages,
delivering `["queued", "Extracting Raw Data"]` and then the terminal
`failed` event does NOT produce the claimed stage vector
`[completed, failed, pending, pending, pending]` together with every
source carrying `error = "bad schema"`: the raw status `"failed"` maps to
the `export` stage (ordinal 4), all four earlier stages get
force-completed, and the handler's `'merged_sources'` source id matches
no source in the batch, so the claimed conjunction is false. -/
theorem failedEvent_claimed_state_counterexample :
    ¬ ((deliverAll c1Events demoState).stages.map (·.status)
        = [.completed, .failed, .pending, .pending, .pending] ∧
       (deliverAll c1Events demoState).status = .failed ∧
       ∀ s ∈ (deliverAll c1Events demoState).sources,
         s.status = .failed ∧ s.error = some "bad schema") := by
  decide

/-- C1 amended: for the sequence `["queued", "Extracting Raw Data"]`
followed by the terminal `failed` event with `error = "bad schema"`,
delivered in order through the coordinator's status handler from a fresh
run, the stage vector is `[completed, completed, completed, completed,
failed]` — the failing raw status maps to the `export` stage (ordinal 4)
and the handler force-completes all earlier stages — `overallStatus` is
`failed`, the failure's error text is carried by the `export` stage, and
the sources in the batch are left entirely unchanged (the handler updates
the synthetic source id `'merged_sources'`, which matches no source), so
no source carries the error. -/
theorem failedEvent_final_state (st : JobState)
    (hstg : st.stages = defaultStages)
    (hsrc : ∀ s ∈ st.sources, s.id ≠ "merged_sources") :
    (deliverAll c1Events st).stages.map (·.status)
      = [.completed, .completed, .completed, .completed, .failed] ∧
    (deliverAll c1Events st).status = .failed ∧
    (deliverAll c1Events st).sources = st.sources ∧
    (∀ g ∈ (deliverAll c1Events st).stages,
      g.id = "export" → g.error = some "bad schema") := by
  simp [deliverAll, coordinatorOnStatus, handleStatusUpdate, stageStep, c1Events,
    statusToStageMap, statusToProgressMap, jsIndexOf, jsIndexOfAux, stageOrder,
    List.enum, List.enumFrom, runningMessage, updateStage, updOneStage,
    applyStageUpdate, updateSource, setProgress, setStatus, setResult, setStageData,
    setCurrentJobId, addLog, jsTemplate, defaultStages, List.foldl_cons,
    List.foldl_nil, hstg, map_updOneSource_no_match hsrc]

theorem failedEvent_final_state_witness :
    (deliverAll c1Events demoState).stages.map (·.status)
      = [.completed, .completed, .completed, .completed, .failed] ∧
    (deliverAll c1Events demoState).status = .failed ∧
    (deliverAll c1Events demoState).sources = demoState.sources ∧
    (∀ g ∈ (deliverAll c1Events demoState).stages,
      g.id = "export" → g.error = some "bad schema") :=
  failedEvent_final_state demoState rfl (by decide)

/-! ## C8: idempotence of a repeated non-terminal event -/

/-- The effect of one `stageStep` iteration on the stages alone. -/
def stageStepStages (estatus : String) (eerror : Option String) (currentIndex : Int)
    (l : List PipelineStage) (p : Nat × String) : List PipelineStage :=
  if (p.1 : Int) < currentIndex then
    l.map (updOneStage p.2
      { status := some .completed, message := some "Stage completed successfully" })
  else if (p.1 : Int) = currentIndex then
    if estatus = "completed" then
      l.map (updOneStage p.2
        { status := some .completed, message := some "All processing complete" })
    else if estatus = "failed" then
      l.map (updOneStage p.2
        { status := some .failed
          error := some (eerror.getD "Processing failed")
          message := some "Error occurred" })
    else
      l.map (updOneStage p.2
        { status := some .running, message := some (runningMessage p.2) })
  else l

/-- The log lines emitted by one `stageStep` iteration. -/
def stageStepLogs (estatus : String) (eerror : Option String) (currentIndex : Int)
    (p : Nat × String) : List String :=
  if (p.1 : Int) < currentIndex then []
  else if (p.1 : Int) = currentIndex then
    if estatus = "completed" then ["✓ " ++ p.2.toUpper ++ ": Completed"]
    else if estatus = "failed" then
      ["✗ " ++ p.2.toUpper ++ ": Failed - " ++ jsTemplate eerror]
    else ["▶ " ++ p.2.toUpper ++ ": " ++ runningMessage p.2]
  else []

lemma stageStep_stages (a : String) (b : Option String) (ci : Int) (st : JobState)
    (p : Nat × String) :
    (stageStep a b ci st p).stages = stageStepStages a b ci st.stages p := by
  simp only [stageStep, stageStepStages]
  split_ifs <;> simp [updateStage, addLog]

lemma stageStep_logs (a : String) (b : Option String) (ci : Int) (st : JobState)
    (p : Nat × String) :
    (stageStep a b ci st p).logs = st.logs ++ stageStepLogs a b ci p := by
  simp only [stageStep, stageStepLogs]
  split_ifs <;> simp [updateStage, addLog]

lemma stageStep_sources (a : String) (b : Option String) (ci : Int) (st : JobState)
    (p : Nat × String) : (stageStep a b ci st p).sources = st.sources := by
  simp only [stageStep]; split_ifs <;> simp [updateStage, addLog]

lemma stageStep_currentJobId (a : String) (b : Option String) (ci : Int) (st : JobState)
    (p : Nat × String) : (stageStep a b ci st p).currentJobId = st.currentJobId := by
  simp only [stageStep]; split_ifs <;> simp [updateStage, addLog]

lemma stageStep_overall (a : String) (b : Option String) (ci : Int) (st : JobState)
    (p : Nat × String) : (stageStep a b ci st p).status = st.status := by
  simp only [stageStep]; split_ifs <;> simp [updateStage, addLog]

lemma stageStep_progress (a : String) (b : Option String) (ci : Int) (st : JobState)
    (p : Nat × String) : (stageStep a b ci st p).progress = st.progress := by
  simp only [stageStep]; split_ifs <;> simp [updateStage, addLog]

lemma stageStep_schema (a : String) (b : Option String) (ci : Int) (st : JobState)
    (p : Nat × String) : (stageStep a b ci st p).schema = st.schema := by
  simp only [stageStep]; split_ifs <;> simp [updateStage, addLog]

lemma stageStep_stageData (a : String) (b : Option String) (ci : Int) (st : JobState)
    (p : Nat × String) : (stageStep a b ci st p).stageData = st.stageData := by
  simp only [stageStep]; split_ifs <;> simp [updateStage, addLog]

lemma stageStep_result (a : String) (b : Option String) (ci : Int) (st : JobState)
    (p : Nat × String) : (stageStep a b ci st p).result = st.result := by
  simp only [stageStep]; split_ifs <;> simp [updateStage, addLog]

lemma stageStep_file (a : String) (b : Option String) (ci : Int) (st : JobState)
    (p : Nat × String) : (stageStep a b ci st p).file = st.file := by
  simp only [stageStep]; split_ifs <;> simp [updateStage, addLog]

/-- The `stageOrder.forEach` fold factors into a pure stage transformation
plus appended log lines. -/
lemma stageStep_fold_split (a : String) (b : Option String) (ci : Int) :
    ∀ (ps : List (Nat × String)) (st : JobState),
      List.foldl (stageStep a b ci) st ps
        = { st with
            stages := ps.foldl (stageStepStages a b ci) st.stages
            logs := st.logs ++ (ps.map (stageStepLogs a b ci)).flatten } := by
  intro ps
  induction ps with
  | nil => intro st; simp
  | cons p ps ih =>
      intro st
      rw [List.foldl_cons, ih, List.foldl_cons]
      simp only [List.map_cons, List.flatten_cons, stageStep_stages, stageStep_logs,
        stageStep_sources, stageStep_currentJobId, stageStep_overall,
        stageStep_progress, stageStep_schema, stageStep_stageData,
        stageStep_result, stageStep_file, List.append_assoc]

/-- Stage transformation performed by the handler for an event whose raw
status maps to some stage (the fold of `stageStepStages` over the
enumerated stage order); identity when the status is unknown. -/
def stagesFor (e : JobStatus) (l : List PipelineStage) : List PipelineStage :=
  match statusToStageMap e.status with
  | some cs =>
      stageOrder.enum.foldl (stageStepStages e.status e.error (jsIndexOf stageOrder cs)) l
  | none => l

/-- Log lines appended by the handler for a non-terminal event. -/
def nonTermLogs (e : JobStatus) : List String :=
  ("→ " ++ e.status) ::
    (match statusToStageMap e.status with
     | some cs =>
         (stageOrder.enum.map
           (stageStepLogs e.status e.error (jsIndexOf stageOrder cs))).flatten
     | none => [])

/-- Characterization of the handler on a non-terminal event: progress is
looked up, stage data is overwritten when attached, the event's log lines
are appended, the stage transformation is applied — and nothing else
(sources, overall status, result, current job id are untouched). -/
lemma handle_nonterm (sid0 : String) (e : JobStatus) (st : JobState)
    (h1 : e.status ≠ "completed") (h2 : e.status ≠ "failed") :
    handleStatusUpdate sid0 e st
      = { st with
          progress := (statusToProgressMap e.status).getD 0
          stageData := match e.stage_data with | some sd => sd | none => st.stageData
          logs := st.logs ++ nonTermLogs e
          stages := stagesFor e st.stages } := by
  cases hsd : e.stage_data with
  | none =>
      cases hm : statusToStageMap e.status with
      | none =>
          simp [handleStatusUpdate, h1, h2, hsd, hm, setProgress, addLog,
            nonTermLogs, stagesFor]
      | some cs =>
          simp [handleStatusUpdate, h1, h2, hsd, hm, setProgress, addLog,
            nonTermLogs, stagesFor, stageStep_fold_split]
  | some sd =>
      cases hm : statusToStageMap e.status with
      | none =>
          simp [handleStatusUpdate, h1, h2, hsd, hm, setProgress, setStageData,
            addLog, nonTermLogs, stagesFor]
      | some cs =>
          simp [handleStatusUpdate, h1, h2, hsd, hm, setProgress, setStageData,
            addLog, nonTermLogs, stagesFor, stageStep_fold_split]

/-- The per-element stage update written `{status: 'completed', message:
'Stage completed successfully'}` in the handler. -/
def completedUpd : StageUpdate :=
  { status := some .completed, message := some "Stage completed successfully" }

/-- The per-element running-state update for a stage. -/
def runUpd (sid : String) : StageUpdate :=
  { status := some .running, message := some (runningMessage sid) }

/-- Sequential application of a list of `(stage id, update)` pairs to one
stage element. -/
def chainFn (ps : List (String × StageUpdate)) (g : PipelineStage) : PipelineStage :=
  ps.foldl (fun x p => updOneStage p.1 p.2 x) g

lemma applyStageUpdate_id (u : StageUpdate) (g : PipelineStage) :
    (applyStageUpdate u g).id = g.id := rfl

lemma applyStageUpdate_idem (u : StageUpdate) (g : PipelineStage) :
    applyStageUpdate u (applyStageUpdate u g) = applyStageUpdate u g := by
  obtain ⟨us, um, ue⟩ := u
  cases us <;> cases um <;> cases ue <;> rfl

lemma chainFn_id (ps : List (String × StageUpdate)) :
    ∀ g : PipelineStage, (chainFn ps g).id = g.id := by
  induction ps with
  | nil => intro g; rfl
  | cons p t ih =>
      intro g
      show (chainFn t (updOneStage p.1 p.2 g)).id = g.id
      rw [ih, updOneStage_id]

lemma chainFn_skip (ps : List (String × StageUpdate)) :
    ∀ g : PipelineStage, g.id ∉ ps.map Prod.fst → chainFn ps g = g := by
  induction ps with
  | nil => intro g _; rfl
  | cons p t ih =>
      intro g h
      simp only [List.map_cons, List.mem_cons, not_or] at h
      show chainFn t (updOneStage p.1 p.2 g) = g
      rw [updOneStage, if_neg h.1]
      exact ih g h.2

lemma chainFn_idem (ps : List (String × StageUpdate))
    (hnd : (ps.map Prod.fst).Nodup) :
    ∀ g : PipelineStage, chainFn ps (chainFn ps g) = chainFn ps g := by
  induction ps with
  | nil => intro g; rfl
  | cons p t ih =>
      intro g
      simp only [List.map_cons, List.nodup_cons] at hnd
      by_cases hid : g.id = p.1
      · have happ : updOneStage p.1 p.2 g = applyStageUpdate p.2 g := by
          rw [updOneStage, if_pos hid]
        have hskip : chainFn t (applyStageUpdate p.2 g) = applyStageUpdate p.2 g := by
          apply chainFn_skip
          rw [applyStageUpdate_id, hid]
          exact hnd.1
        have hinner : chainFn (p :: t) g = applyStageUpdate p.2 g := by
          show chainFn t (updOneStage p.1 p.2 g) = applyStageUpdate p.2 g
          rw [happ, hskip]
        rw [hinner]
        show chainFn t (updOneStage p.1 p.2 (applyStageUpdate p.2 g))
          = applyStageUpdate p.2 g
        rw [updOneStage, if_pos (by rw [applyStageUpdate_id, hid]),
          applyStageUpdate_idem, hskip]
      · have hinner : chainFn (p :: t) g = chainFn t g := by
          show chainFn t (updOneStage p.1 p.2 g) = chainFn t g
          rw [updOneStage, if_neg hid]
        rw [hinner]
        show chainFn t (updOneStage p.1 p.2 (chainFn t g)) = chainFn t g
        rw [updOneStage, if_neg (by rw [chainFn_id]; exact hid)]
        exact ih hnd.2 g

lemma map_chainFn_idem (ps : List (String × StageUpdate))
    (hnd : (ps.map Prod.fst).Nodup) (l : List PipelineStage) :
    (l.map (chainFn ps)).map (chainFn ps) = l.map (chainFn ps) := by
  induction l with
  | nil => rfl
  | cons a t ih => simp [chainFn_idem ps hnd, ih]

/-- The five concrete stage-update chains, one per stage the raw status
can map to. -/
def runChain0 : List (String × StageUpdate) := [("ingestion", runUpd "ingestion")]

def runChain1 : List (String × StageUpdate) :=
  [("ingestion", completedUpd), ("cleaning", runUpd "cleaning")]

def runChain2 : List (String × StageUpdate) :=
  [("ingestion", completedUpd), ("cleaning", completedUpd),
   ("normalization", runUpd "normalization")]

def runChain3 : List (String × StageUpdate) :=
  [("ingestion", completedUpd), ("cleaning", completedUpd),
   ("normalization", completedUpd), ("validation", runUpd "validation")]

def runChain4 : List (String × StageUpdate) :=
  [("ingestion", completedUpd), ("cleaning", completedUpd),
   ("normalization", completedUpd), ("validation", completedUpd),
   ("export", runUpd "export")]

lemma foldRun0 (a : String) (b : Option String) (h1 : a ≠ "completed")
    (h2 : a ≠ "failed") (l : List PipelineStage) :
    List.foldl (stageStepStages a b 0) l stageOrder.enum = l.map (chainFn runChain0) := by
  simp [stageStepStages, stageOrder, List.enum, List.enumFrom, chainFn, runChain0,
    completedUpd, runUpd, h1, h2, List.map_map, Function.comp]

lemma foldRun1 (a : String) (b : Option String) (h1 : a ≠ "completed")
    (h2 : a ≠ "failed") (l : List PipelineStage) :
    List.foldl (stageStepStages a b 1) l stageOrder.enum = l.map (chainFn runChain1) := by
  simp [stageStepStages, stageOrder, List.enum, List.enumFrom, chainFn, runChain1,
    completedUpd, runUpd, h1, h2, List.map_map, Function.comp]

lemma foldRun2 (a : String) (b : Option String) (h1 : a ≠ "completed")
    (h2 : a ≠ "failed") (l : List PipelineStage) :
    List.foldl (stageStepStages a b 2) l stageOrder.enum = l.map (chainFn runChain2) := by
  simp [stageStepStages, stageOrder, List.enum, List.enumFrom, chainFn, runChain2,
    completedUpd, runUpd, h1, h2, List.map_map, Function.comp]

lemma foldRun3 (a : String) (b : Option String) (h1 : a ≠ "completed")
    (h2 : a ≠ "failed") (l : List PipelineStage) :
    List.foldl (stageStepStages a b 3) l stageOrder.enum = l.map (chainFn runChain3) := by
  simp [stageStepStages, stageOrder, List.enum, List.enumFrom, chainFn, runChain3,
    completedUpd, runUpd, h1, h2, List.map_map, Function.comp]

lemma foldRun4 (a : String) (b : Option String) (h1 : a ≠ "completed")
    (h2 : a ≠ "failed") (l : List PipelineStage) :
    List.foldl (stageStepStages a b 4) l stageOrder.enum = l.map (chainFn runChain4) := by
  simp [stageStepStages, stageOrder, List.enum, List.enumFrom, chainFn, runChain4,
    completedUpd, runUpd, h1, h2, List.map_map, Function.comp]

lemma statusToStageMap_cases {s cs : String} (hm : statusToStageMap s = some cs) :
    cs = "ingestion" ∨ cs = "cleaning" ∨ cs = "normalization" ∨
    cs = "validation" ∨ cs = "export" := by
  unfold statusToStageMap at hm
  split_ifs at hm <;> simp_all

lemma jsIndexOf_ingestion : jsIndexOf stageOrder "ingestion" = 0 := by decide

lemma jsIndexOf_cleaning : jsIndexOf stageOrder "cleaning" = 1 := by decide

lemma jsIndexOf_normalization : jsIndexOf stageOrder "normalization" = 2 := by decide

lemma jsIndexOf_validation : jsIndexOf stageOrder "validation" = 3 := by decide

lemma jsIndexOf_export : jsIndexOf stageOrder "export" = 4 := by decide

/-- The stage transformation of a non-terminal event is idempotent. -/
lemma stagesFor_idem (e : JobStatus) (h1 : e.status ≠ "completed")
    (h2 : e.status ≠ "failed") (l : List PipelineStage) :
    stagesFor e (stagesFor e l) = stagesFor e l := by
  unfold stagesFor
  cases hm : statusToStageMap e.status with
  | none => rfl
  | some cs =>
      rcases statusToStageMap_cases hm with h | h | h | h | h <;> subst h <;>
        simp only []
      · rw [jsIndexOf_ingestion, foldRun0 _ _ h1 h2, foldRun0 _ _ h1 h2]
        exact map_chainFn_idem runChain0 (by decide) l
      · rw [jsIndexOf_cleaning, foldRun1 _ _ h1 h2, foldRun1 _ _ h1 h2]
        exact map_chainFn_idem runChain1 (by decide) l
      · rw [jsIndexOf_normalization, foldRun2 _ _ h1 h2, foldRun2 _ _ h1 h2]
        exact map_chainFn_idem runChain2 (by decide) l
      · rw [jsIndexOf_validation, foldRun3 _ _ h1 h2, foldRun3 _ _ h1 h2]
        exact map_chainFn_idem runChain3 (by decide) l
      · rw [jsIndexOf_export, foldRun4 _ _ h1 h2, foldRun4 _ _ h1 h2]
        exact map_chainFn_idem runChain4 (by decide) l

/-- After a non-terminal event, every stage carrying the mapped stage id is
`running`. -/
lemma stagesFor_running (e : JobStatus) (h1 : e.status ≠ "completed")
    (h2 : e.status ≠ "failed") (sid : String)
    (hm : statusToStageMap e.status = some sid) (l : List PipelineStage) :
    ∀ g ∈ stagesFor e l, g.id = sid → g.status = .running := by
  unfold stagesFor
  rw [hm]
  rcases statusToStageMap_cases hm with h | h | h | h | h <;> subst h <;>
    simp only []
  · rw [jsIndexOf_ingestion, foldRun0 _ _ h1 h2]
    intro g hg hid
    obtain ⟨x, hx, rfl⟩ := List.mem_map.mp hg
    rw [chainFn_id] at hid
    simp [chainFn, updOneStage, applyStageUpdate, runChain0, completedUpd, runUpd, hid]
  · rw [jsIndexOf_cleaning, foldRun1 _ _ h1 h2]
    intro g hg hid
    obtain ⟨x, hx, rfl⟩ := List.mem_map.mp hg
    rw [chainFn_id] at hid
    simp [chainFn, updOneStage, applyStageUpdate, runChain1, completedUpd, runUpd, hid]
  · rw [jsIndexOf_normalization, foldRun2 _ _ h1 h2]
    intro g hg hid
    obtain ⟨x, hx, rfl⟩ := List.mem_map.mp hg
    rw [chainFn_id] at hid
    simp [chainFn, updOneStage, applyStageUpdate, runChain2, completedUpd, runUpd, hid]
  · rw [jsIndexOf_validation, foldRun3 _ _ h1 h2]
    intro g hg hid
    obtain ⟨x, hx, rfl⟩ := List.mem_map.mp hg
    rw [chainFn_id] at hid
    simp [chainFn, updOneStage, applyStageUpdate, runChain3, completedUpd, runUpd, hid]
  · rw [jsIndexOf_export, foldRun4 _ _ h1 h2]
    intro g hg hid
    obtain ⟨x, hx, rfl⟩ := List.mem_map.mp hg
    rw [chainFn_id] at hid
    simp [chainFn, updOneStage, applyStageUpdate, runChain4, completedUpd, runUpd, hid]

lemma drop_append_self {α : Type} (l1 l2 : List α) :
    (l1 ++ l2).drop l1.length = l2 := by
  induction l1 with
  | nil => rfl
  | cons a t ih =>
      simp only [List.cons_append, List.length_cons, List.drop_succ_cons]
      exact ih

/-- C8: delivering the same non-terminal status event twice in a row
through the coordinator's status handler is idempotent up to logging:
after the second delivery the stages, progress, sources, overall status,
result, stage data and current job id are exactly as after the first, the
stage mapped by the event stays `running`, and the logs differ only by a
second copy of the event's own log lines (the suffix the first delivery
appended). -/
theorem nonterminal_idempotent (st : JobState) (e : JobStatus)
    (h1 : e.status ≠ "completed") (h2 : e.status ≠ "failed") :
    (coordinatorOnStatus e (coordinatorOnStatus e st)).stages
      = (coordinatorOnStatus e st).stages ∧
    (coordinatorOnStatus e (coordinatorOnStatus e st)).progress
      = (coordinatorOnStatus e st).progress ∧
    (coordinatorOnStatus e (coordinatorOnStatus e st)).sources
      = (coordinatorOnStatus e st).sources ∧
    (coordinatorOnStatus e (coordinatorOnStatus e st)).status
      = (coordinatorOnStatus e st).status ∧
    (coordinatorOnStatus e (coordinatorOnStatus e st)).result
      = (coordinatorOnStatus e st).result ∧
    (coordinatorOnStatus e (coordinatorOnStatus e st)).stageData
      = (coordinatorOnStatus e st).stageData ∧
    (coordinatorOnStatus e (coordinatorOnStatus e st)).currentJobId
      = (coordinatorOnStatus e st).currentJobId ∧
    (coordinatorOnStatus e (coordinatorOnStatus e st)).logs
      = (coordinatorOnStatus e st).logs
        ++ (coordinatorOnStatus e st).logs.drop st.logs.length ∧
    (∀ sid, statusToStageMap e.status = some sid →
      ∀ g ∈ (coordinatorOnStatus e st).stages, g.id = sid → g.status = .running) := by
  have H1 := handle_nonterm "merged_sources" e st h1 h2
  have H2 := handle_nonterm "merged_sources" e
    (handleStatusUpdate "merged_sources" e st) h1 h2
  simp only [coordinatorOnStatus]
  rw [H2, H1]
  refine ⟨?_, rfl, rfl, rfl, rfl, ?_, rfl, ?_, ?_⟩
  · exact stagesFor_idem e h1 h2 st.stages
  · cases hsd : e.stage_data <;> simp [hsd]
  · show (st.logs ++ nonTermLogs e) ++ nonTermLogs e
      = (st.logs ++ nonTermLogs e) ++ ((st.logs ++ nonTermLogs e).drop st.logs.length)
    rw [drop_append_self]
  · intro sid hm
    exact stagesFor_running e h1 h2 sid hm st.stages

/-- Concrete non-terminal event used by the idempotence witness. -/
def qEvent : JobStatus := { status := "queued" }

lemma qEvent_ne_completed : qEvent.status ≠ "completed" := by decide

lemma qEvent_ne_failed : qEvent.status ≠ "failed" := by decide

theorem nonterminal_idempotent_witness :
    (coordinatorOnStatus qEvent (coordinatorOnStatus qEvent demoState)).stages
      = (coordinatorOnStatus qEvent demoState).stages ∧
    (coordinatorOnStatus qEvent (coordinatorOnStatus qEvent demoState)).progress
      = (coordinatorOnStatus qEvent demoState).progress ∧
    (coordinatorOnStatus qEvent (coordinatorOnStatus qEvent demoState)).sources
      = (coordinatorOnStatus qEvent demoState).sources ∧
    (coordinatorOnStatus qEvent (coordinatorOnStatus qEvent demoState)).status
      = (coordinatorOnStatus qEvent demoState).status ∧
    (coordinatorOnStatus qEvent (coordinatorOnStatus qEvent demoState)).result
      = (coordinatorOnStatus qEvent demoState).result ∧
    (coordinatorOnStatus qEvent (coordinatorOnStatus qEvent demoState)).stageData
      = (coordinatorOnStatus qEvent demoState).stageData ∧
    (coordinatorOnStatus qEvent (coordinatorOnStatus qEvent demoState)).currentJobId
      = (coordinatorOnStatus qEvent demoState).currentJobId ∧
    (coordinatorOnStatus qEvent (coordinatorOnStatus qEvent demoState)).logs
      = (coordinatorOnStatus qEvent demoState).logs
        ++ (coordinatorOnStatus qEvent demoState).logs.drop demoState.logs.length ∧
    (∀ sid, statusToStageMap qEvent.status = some sid →
      ∀ g ∈ (coordinatorOnStatus qEvent demoState).stages,
        g.id = sid → g.status = .running) :=
  nonterminal_idempotent demoState qEvent qEvent_ne_completed qEvent_ne_failed

/-! ## C4: terminal event tears the channel down -/

lemma filter_fst_map_ne {γ : Type} (f : Nat → γ) {j j' : String} (hj : j' ≠ j)
    (l : List Nat) :
    (l.map (fun c => (j', f c))).filter (fun d => d.1 = j) = [] := by
  induction l with
  | nil => rfl
  | cons a t ih => simp [hj, ih]

/-- Once a job id has no callbacks and no error callbacks registered, no
event whatsoever can produce a delivery for it, and the two callback maps
stay empty for it. -/
lemma wsStep_dead (j : String) (m : WSManager)
    (h1 : m.callbacks j = none) (h2 : m.errorCallbacks j = none) (ev : NetEvent) :
    (wsStep m ev).m.callbacks j = none ∧
    (wsStep m ev).m.errorCallbacks j = none ∧
    (wsStep m ev).deliveries.filter (fun d => d.1 = j) = [] ∧
    (wsStep m ev).errors.filter (fun d => d.1 = j) = [] := by
  cases ev with
  | wsOpen j' => simp [wsStep, silentEffect, h1, h2]
  | message j' p =>
      cases p with
      | none => simp [wsStep, silentEffect, h1, h2]
      | some e =>
          by_cases hj : j' = j
          · subst hj
            simp only [wsStep, h1, Option.getD_none, List.map_nil]
            refine ⟨?_, ?_, rfl, rfl⟩ <;>
              · split <;> simp [cleanup, mapDel, h1, h2]
          · simp only [wsStep]
            refine ⟨?_, ?_, ?_, rfl⟩
            · split <;> simp [cleanup, mapDel, hj, h1]
            · split <;> simp [cleanup, mapDel, hj, h2]
            · exact filter_fst_map_ne (fun c => (c, e)) hj _
  | wsError j' =>
      by_cases hj : j' = j
      · subst hj; simp [wsStep, h1, h2]
      · simp only [wsStep]
        exact ⟨h1, h2, rfl, filter_fst_map_ne (fun c => (c, "WebSocket connection error")) hj _⟩
  | wsClose j' code =>
      simp only [wsStep]
      split
      · -- abnormal close: attemptReconnect
        simp only [attemptReconnect]
        split
        · simp [h1, h2]
        · by_cases hj : j' = j
          · subst hj
            simp [cleanup, mapDel, h1, h2]
          · simp only [cleanup, mapDel]
            refine ⟨?_, ?_, rfl, ?_⟩
            · simp [hj, h1]
            · simp [hj, h2]
            · exact filter_fst_map_ne
                (fun c => (c, "Connection lost. Max reconnect attempts reached.")) hj _
      · simp [silentEffect, h1, h2]
  | timerFire j' =>
      simp only [wsStep]
      split
      · simp [silentEffect, h1, h2]
      · simp [createConnection, h1, h2]

/-- Processing any event sequence from a dead-listener state yields no
delivery for that job id. -/
lemma wsRun_dead (j : String) :
    ∀ (evs : List NetEvent) (m : WSManager),
      m.callbacks j = none → m.errorCallbacks j = none →
      (wsRun m evs).deliveries.filter (fun d => d.1 = j) = [] ∧
      (wsRun m evs).errors.filter (fun d => d.1 = j) = [] := by
  intro evs
  induction evs with
  | nil => intro m h1 h2; simp [wsRun, silentEffect]
  | cons ev rest ih =>
      intro m h1 h2
      obtain ⟨d1, d2, d3, d4⟩ := wsStep_dead j m h1 h2 ev
      obtain ⟨r1, r2⟩ := ih (wsStep m ev).m d1 d2
      simp [wsRun, List.filter_append, d3, d4, r1, r2]

/-- C4: delivering a parsed terminal event (`completed` or `failed`) for a
job id notifies exactly the currently registered listeners, then
immediately tears down every piece of the channel's bookkeeping for that
job id; afterwards no listener for that job id ever receives any further
status or error delivery, whatever later messages, errors, closes, opens
or timer firings occur. -/
theorem terminal_event_teardown (m : WSManager) (j : String) (e : JobStatus)
    (hterm : e.status = "completed" ∨ e.status = "failed") (evs : List NetEvent) :
    (wsStep m (.message j (some e))).deliveries
      = ((m.callbacks j).getD []).map (fun c => (j, c, e)) ∧
    (wsStep m (.message j (some e))).m.connections j = false ∧
    (wsStep m (.message j (some e))).m.callbacks j = none ∧
    (wsStep m (.message j (some e))).m.errorCallbacks j = none ∧
    (wsStep m (.message j (some e))).m.reconnectAttempts j = none ∧
    (wsRun (wsStep m (.message j (some e))).m evs).deliveries.filter
      (fun d => d.1 = j) = [] ∧
    (wsRun (wsStep m (.message j (some e))).m evs).errors.filter
      (fun d => d.1 = j) = [] := by
  have hcl : (wsStep m (.message j (some e))).m = cleanup j m := by
    simp only [wsStep]
    rw [if_pos hterm]
  have h1 : (cleanup j m).callbacks j = none := by simp [cleanup, mapDel]
  have h2 : (cleanup j m).errorCallbacks j = none := by simp [cleanup, mapDel]
  obtain ⟨r1, r2⟩ := wsRun_dead j evs (cleanup j m) h1 h2
  rw [hcl]
  refine ⟨rfl, ?_, h1, h2, ?_, r1, r2⟩
  · simp [cleanup, boolSet]
  · simp [cleanup, mapDel]

/-- Concrete manager used by the channel-claim witnesses. -/
def demoWS : WSManager :=
  { connections := fun k => k = "job1"
    callbacks := fun k => if k = "job1" then some [0] else none
    errorCallbacks := fun k => if k = "job1" then some [1] else none
    reconnectAttempts := fun _ => none }

theorem terminal_event_teardown_witness :
    (wsStep demoWS (.message "job1" (some { status := "completed" }))).deliveries
      = ((demoWS.callbacks "job1").getD []).map (fun c => ("job1", c,
          ({ status := "completed" } : JobStatus))) ∧
    (wsStep demoWS (.message "job1" (some { status := "completed" }))).m.connections
      "job1" = false ∧
    (wsStep demoWS (.message "job1" (some { status := "completed" }))).m.callbacks
      "job1" = none ∧
    (wsStep demoWS (.message "job1" (some { status := "completed" }))).m.errorCallbacks
      "job1" = none ∧
    (wsStep demoWS (.message "job1" (some { status := "completed" }))).m.reconnectAttempts
      "job1" = none ∧
    (wsRun (wsStep demoWS (.message "job1" (some { status := "completed" }))).m
      [.message "job1" (some { status := "queued" }), .wsError "job1",
       .wsClose "job1" 1006, .timerFire "job1"]).deliveries.filter
      (fun d => d.1 = "job1") = [] ∧
    (wsRun (wsStep demoWS (.message "job1" (some { status := "completed" }))).m
      [.message "job1" (some { status := "queued" }), .wsError "job1",
       .wsClose "job1" 1006, .timerFire "job1"]).errors.filter
      (fun d => d.1 = "job1") = [] :=
  terminal_event_teardown demoWS "job1" { status := "completed" } (Or.inl rfl)
    [.message "job1" (some { status := "queued" }), .wsError "job1",
     .wsClose "job1" 1006, .timerFire "job1"]

/-! ## C5: reconnect backoff and exhaustion -/

/-- Six unintentional closes (code 1006), each followed by its retry timer
firing, with no successful open in between. -/
def backoffCloseEvents (j : String) : List NetEvent :=
  [.wsClose j 1006, .timerFire j, .wsClose j 1006, .timerFire j, .wsClose j 1006,
   .timerFire j, .wsClose j 1006, .timerFire j, .wsClose j 1006, .timerFire j,
   .wsClose j 1006]

/-- C5: starting from a fresh reconnect counter, the five retries scheduled
for attempts 0..4 wait exactly 1000, 2000, 4000, 8000, 16000 ms in that
order; the sixth unintentional close delivers exactly one synthetic
terminal error to each registered error listener, schedules no further
retry, and discards the job id's bookkeeping. -/
theorem reconnect_backoff_exhaustion (m : WSManager) (j : String) (ecbs : List Nat)
    (h0 : m.reconnectAttempts j = none)
    (he : m.errorCallbacks j = some ecbs) :
    (wsRun m (backoffCloseEvents j)).scheduled
      = [(j, 1000), (j, 2000), (j, 4000), (j, 8000), (j, 16000)] ∧
    (wsRun m (backoffCloseEvents j)).errors
      = ecbs.map (fun c => (j, c, "Connection lost. Max reconnect attempts reached.")) ∧
    (wsRun m (backoffCloseEvents j)).deliveries = [] ∧
    (wsRun m (backoffCloseEvents j)).m.reconnectAttempts j = none ∧
    (wsRun m (backoffCloseEvents j)).m.callbacks j = none ∧
    (wsRun m (backoffCloseEvents j)).m.errorCallbacks j = none := by
  simp [backoffCloseEvents, wsRun, wsStep, attemptReconnect, cleanup, silentEffect,
    createConnection, mapSet, mapDel, boolSet, maxReconnectAttempts, reconnectDelay,
    h0, he]

theorem reconnect_backoff_exhaustion_witness :
    (wsRun demoWS (backoffCloseEvents "job1")).scheduled
      = [("job1", 1000), ("job1", 2000), ("job1", 4000), ("job1", 8000),
         ("job1", 16000)] ∧
    (wsRun demoWS (backoffCloseEvents "job1")).errors
      = [1].map (fun c =>
          ("job1", c, "Connection lost. Max reconnect attempts reached.")) ∧
    (wsRun demoWS (backoffCloseEvents "job1")).deliveries = [] ∧
    (wsRun demoWS (backoffCloseEvents "job1")).m.reconnectAttempts "job1" = none ∧
    (wsRun demoWS (backoffCloseEvents "job1")).m.callbacks "job1" = none ∧
    (wsRun demoWS (backoffCloseEvents "job1")).m.errorCallbacks "job1" = none :=
  reconnect_backoff_exhaustion demoWS "job1" [1] rfl rfl

/-! ## C9: removal rejected while a job is in flight -/

/-- C9: a removal requested through the SourcesPanel while the job is in
flight (`overallStatus` is `uploading` or `processing`) is rejected — the
remove button is not rendered — and the whole store, in particular the
sources list's membership and order, is unchanged. -/
theorem removeSource_rejected_inflight (id : String) (st : JobState)
    (h : st.status = .uploading ∨ st.status = .processing) :
    sourcesPanelRemoveRequest id st = st := by
  rcases h with h | h <;>
    simp [sourcesPanelRemoveRequest, isProcessingUI, h]

theorem removeSource_rejected_inflight_witness :
    sourcesPanelRemoveRequest "a" { demoState with status := .processing } =
      { demoState with status := .processing } :=
  removeSource_rejected_inflight "a" { demoState with status := .processing }
    (Or.inr rfl)

/-! ## C10: updates with an unknown id are frame-preserving -/

/-- C10: for every store state and every id matching no existing source
(respectively no existing stage), `updateSource` (respectively
`updateStage`) leaves the entire store state unchanged — same lists, same
order, no field of any element mutated, and being a total function it
cannot throw. -/
theorem update_unknown_id_frame (st : JobState) (id : String)
    (u : SourceUpdate) (v : StageUpdate) :
    ((∀ s ∈ st.sources, s.id ≠ id) → updateSource id u st = st) ∧
    ((∀ g ∈ st.stages, g.id ≠ id) → updateStage id v st = st) := by
  constructor
  · intro h
    unfold updateSource
    rw [map_updOneSource_no_match h u]
  · intro h
    unfold updateStage
    rw [map_updOneStage_no_match h v]

theorem update_unknown_id_frame_witness :
    updateSource "zz" { status := some .failed } demoState = demoState ∧
    updateStage "zz" { status := some .failed } demoState = demoState :=
  ⟨(update_unknown_id_frame demoState "zz" { status := some .failed }
      { status := some .failed }).1 (by decide),
   (update_unknown_id_frame demoState "zz" { status := some .failed }
      { status := some .failed }).2 (by decide)⟩

end Atom8
